import Mathlib

/-!
Verification of the patient-registry CRUD client
(`src/components/PatientManagement.tsx`, `PatientForm`, `DeleteConfirmModal`,
`src/types/patient.ts`, and the `pacientes` table policies of the SQL
migration).

Shallow embedding conventions:
* JavaScript strings are Lean `String`s; the character-level operations the
  code performs (`replace(/\D/g,'')`, `trim()`, `toLowerCase()`,
  `includes(...)`) are modelled on the underlying `List Char` so that every
  definition is executable and kernel-reducible.
* Timestamps (`data_cadastro`, a Postgres `timestamptz`) are modelled as
  `Nat`, keeping only their total order, which is all `ORDER BY` uses.
* The remote boundary (Supabase) is modelled as a list of table rows plus the
  row-level-security policies of the migration (every select / update / delete
  is restricted to rows with `user_id = auth.uid()`).  A remote operation
  either fails with an opaque error message (`failure = some msg`, covering
  network errors and constraint violations) or succeeds (`failure = none`).
* React state updates are modelled as pure transition functions from the
  settled pre-state to the settled post-state of the interaction.
-/

/-! ## Character-level string primitives -/

/-- JS `value.replace(/\D/g, '')`: keep only decimal digits. -/
def stripNonDigits (s : String) : String :=
  String.mk (s.data.filter Char.isDigit)

/-- JS `String.prototype.trim()`: drop whitespace from both ends. -/
def strTrim (s : String) : String :=
  String.mk (((s.data.dropWhile Char.isWhitespace).reverse.dropWhile
    Char.isWhitespace).reverse)

/-- JS `String.prototype.toLowerCase()` (ASCII-faithful model). -/
def strToLower (s : String) : String :=
  String.mk (s.data.map Char.toLower)

/-- Helper for JS `String.prototype.includes`: `pat` occurs contiguously in
`hay`. -/
def containsSub : List Char → List Char → Bool
  | [], pat => pat.isEmpty
  | x :: t, pat => pat.isPrefixOf (x :: t) || containsSub t pat

/-- JS `s.includes(sub)`. -/
def strIncludes (s sub : String) : Bool :=
  containsSub s.data sub.data

/-! ## The two pure formatters of `PatientForm` -/

/-- `formatCPF` (PatientForm): strip non-digits, then re-insert the
`DDD.DDD.DDD-DD` separators when the regex
`^(\d{3})(\d{3})(\d{3})(\d{2})$` matches (11 digit characters), else return
the stripped string. -/
def formatCPF (value : String) : String :=
  match (stripNonDigits value).data with
  | [c1, c2, c3, c4, c5, c6, c7, c8, c9, c10, c11] =>
    if c1.isDigit && c2.isDigit && c3.isDigit && c4.isDigit && c5.isDigit &&
        c6.isDigit && c7.isDigit && c8.isDigit && c9.isDigit && c10.isDigit &&
        c11.isDigit then
      String.mk [c1, c2, c3, '.', c4, c5, c6, '.', c7, c8, c9, '-', c10, c11]
    else stripNonDigits value
  | _ => stripNonDigits value

/-- `formatPhone` (PatientForm): strip non-digits; with exactly 11 digits the
regex `^(\d{2})(\d{5})(\d{4})$` yields `(DD) DDDDD-DDDD`; with exactly 10
digits the regex `^(\d{2})(\d{4})(\d{4})$` yields `(DD) DDDD-DDDD`; otherwise
the stripped digits are returned. -/
def formatPhone (value : String) : String :=
  if (stripNonDigits value).length = 11 then
    match (stripNonDigits value).data with
    | [c1, c2, c3, c4, c5, c6, c7, c8, c9, c10, c11] =>
      if c1.isDigit && c2.isDigit && c3.isDigit && c4.isDigit && c5.isDigit &&
          c6.isDigit && c7.isDigit && c8.isDigit && c9.isDigit && c10.isDigit &&
          c11.isDigit then
        String.mk ['(', c1, c2, ')', ' ', c3, c4, c5, c6, c7, '-', c8, c9, c10, c11]
      else stripNonDigits value
    | _ => stripNonDigits value
  else if (stripNonDigits value).length = 10 then
    match (stripNonDigits value).data with
    | [c1, c2, c3, c4, c5, c6, c7, c8, c9, c10] =>
      if c1.isDigit && c2.isDigit && c3.isDigit && c4.isDigit && c5.isDigit &&
          c6.isDigit && c7.isDigit && c8.isDigit && c9.isDigit &&
          c10.isDigit then
        String.mk ['(', c1, c2, ')', ' ', c3, c4, c5, c6, '-', c7, c8, c9, c10]
      else stripNonDigits value
    | _ => stripNonDigits value
  else stripNonDigits value

/-- Decides the (anchored) regex `^\d{3}\.\d{3}\.\d{3}-\d{2}$` used by the
zod rule for `cpf`. -/
def matchesCPFPattern (s : String) : Bool :=
  match s.data with
  | [c1, c2, c3, p1, c4, c5, c6, p2, c7, c8, c9, p3, c10, c11] =>
    c1.isDigit && c2.isDigit && c3.isDigit && p1 == '.' &&
    c4.isDigit && c5.isDigit && c6.isDigit && p2 == '.' &&
    c7.isDigit && c8.isDigit && c9.isDigit && p3 == '-' &&
    c10.isDigit && c11.isDigit
  | _ => false

/-- Decides the (anchored) regex `^\(\d{2}\) \d{4,5}-\d{4}$` used by the zod
rule for `telefone`: either the 10-digit shape or the 11-digit shape. -/
def matchesPhonePattern (s : String) : Bool :=
  match s.data with
  | [p1, c1, c2, p2, p3, c3, c4, c5, c6, p4, c7, c8, c9, c10] =>
    p1 == '(' && c1.isDigit && c2.isDigit && p2 == ')' && p3 == ' ' &&
    c3.isDigit && c4.isDigit && c5.isDigit && c6.isDigit && p4 == '-' &&
    c7.isDigit && c8.isDigit && c9.isDigit && c10.isDigit
  | [p1, c1, c2, p2, p3, c3, c4, c5, c6, c7, p4, c8, c9, c10, c11] =>
    p1 == '(' && c1.isDigit && c2.isDigit && p2 == ')' && p3 == ' ' &&
    c3.isDigit && c4.isDigit && c5.isDigit && c6.isDigit && c7.isDigit &&
    p4 == '-' && c8.isDigit && c9.isDigit && c10.isDigit && c11.isDigit
  | _ => false

/-! ## Data model (`src/types/patient.ts` and the `pacientes` table) -/

/-- Frontend `Patient` record.  `loadPatients` coalesces nullable columns to
`''`, so the optional fields are plain strings here; `data_cadastro` is the
server timestamp, kept abstractly as a `Nat`. -/
structure Patient where
  id : String
  nome_completo : String
  data_nascimento : String
  cpf : String
  telefone : String
  endereco_completo : String
  data_cadastro : Nat
deriving DecidableEq, Repr

/-- `CreatePatientData`: the validated form payload (no `id`).  The two
optional fields keep their `string | undefined` type as `Option String`. -/
structure CreatePatientData where
  nome_completo : String
  data_nascimento : String
  cpf : String
  telefone : Option String
  endereco_completo : Option String
deriving DecidableEq, Repr

/-- `UpdatePatientData`: the create payload plus the record `id`. -/
structure UpdatePatientData where
  id : String
  nome_completo : String
  data_nascimento : String
  cpf : String
  telefone : Option String
  endereco_completo : Option String
deriving DecidableEq, Repr

/-- A row of the `pacientes` table (SQL migration): nullable `telefone` and
`endereco_completo`, server-assigned `data_cadastro`, owner `user_id`. -/
structure Row where
  id : String
  nome_completo : String
  data_nascimento : String
  cpf : String
  telefone : Option String
  endereco_completo : Option String
  data_cadastro : Nat
  user_id : String
deriving DecidableEq, Repr

/-- The database-to-frontend conversion in `loadPatients` (`telefone || ''`,
`endereco_completo || ''`). -/
def rowToPatient (r : Row) : Patient :=
  { id := r.id
    nome_completo := r.nome_completo
    data_nascimento := r.data_nascimento
    cpf := r.cpf
    telefone := r.telefone.getD ""
    endereco_completo := r.endereco_completo.getD ""
    data_cadastro := r.data_cadastro }

/-! ## The zod schema of `PatientForm` -/

/-- Working values of the form's controlled inputs.  The three required
fields are always strings; the two optional ones may be `undefined`. -/
structure RawForm where
  nome_completo : String
  data_nascimento : String
  cpf : String
  telefone : Option String
  endereco_completo : Option String
deriving DecidableEq, Repr

/-- zod `telefone` rule: `.optional().refine(v => !v || regex.test(v))` —
`undefined` and the empty string (both falsy) pass, anything else must match
the phone pattern. -/
def telefoneOk (v : Option String) : Bool :=
  match v with
  | none => true
  | some s => s == "" || matchesPhonePattern s

/-- zod `endereco_completo` rule: `.max(1000).optional()`. -/
def enderecoOk (v : Option String) : Bool :=
  match v with
  | none => true
  | some s => decide (s.length ≤ 1000)

/-- `patientSchema.parse`: trims `nome_completo` and `cpf`, then checks, in
field order, min/max length for the name, the required birth date, the CPF
pattern, the optional phone pattern and the address length, returning the
first failing message or the parsed (trimmed) payload. -/
def zodParse (f : RawForm) : Except String CreatePatientData :=
  if (strTrim f.nome_completo).length < 1 then
    Except.error "Nome completo é obrigatório"
  else if 255 < (strTrim f.nome_completo).length then
    Except.error "Nome deve ter no máximo 255 caracteres"
  else if f.data_nascimento.length < 1 then
    Except.error "Data de nascimento é obrigatória"
  else if (strTrim f.cpf).length < 1 then
    Except.error "CPF é obrigatório"
  else if !matchesCPFPattern (strTrim f.cpf) then
    Except.error "CPF deve estar no formato 000.000.000-00"
  else if !telefoneOk f.telefone then
    Except.error "Telefone deve estar no formato (00) 00000-0000"
  else if !enderecoOk f.endereco_completo then
    Except.error "Endereço deve ter no máximo 1000 caracteres"
  else
    Except.ok
      { nome_completo := strTrim f.nome_completo
        data_nascimento := f.data_nascimento
        cpf := strTrim f.cpf
        telefone := f.telefone
        endereco_completo := f.endereco_completo }

/-- The claim's validity conditions (C6), written from the spec's words for
comparison with `zodParse`: trimmed name non-empty and at most 255
characters, birth date non-empty, tax ID matching the CPF pattern, phone
absent/empty or matching the phone pattern, address at most 1000
characters. -/
def specFormValid (f : RawForm) : Prop :=
  strTrim f.nome_completo ≠ "" ∧
  (strTrim f.nome_completo).length ≤ 255 ∧
  f.data_nascimento ≠ "" ∧
  matchesCPFPattern (strTrim f.cpf) = true ∧
  (f.telefone = none ∨ f.telefone = some "" ∨
    ∃ t, f.telefone = some t ∧ matchesPhonePattern t = true) ∧
  (∀ a, f.endereco_completo = some a → a.length ≤ 1000)

/-- The form's state after `reset()` in create mode (`defaultValues: {}`). -/
def emptyRawForm : RawForm :=
  { nome_completo := ""
    data_nascimento := ""
    cpf := ""
    telefone := none
    endereco_completo := none }

/-- One submit click of the creation form, up to the emission of the payload:
`handleSubmit(handleFormSubmit)` runs the resolver; on failure nothing is
emitted and the working values are untouched; on success `handleFormSubmit`
emits the parsed payload and then unconditionally calls `reset()`. -/
def handleSubmitForm (f : RawForm) : Option CreatePatientData × RawForm :=
  match zodParse f with
  | Except.ok p => (some p, emptyRawForm)
  | Except.error _ => (none, f)

/-! ## `PatientManagement` state and remote boundary -/

/-- A `toast(...)` notification; `variantDestructive` is true for the
`variant: "destructive"` error toasts. -/
structure Toast where
  title : String
  description : String
  variantDestructive : Bool
deriving DecidableEq, Repr

/-- The `useState` cells of `PatientManagement`. -/
structure MgmtState where
  patients : List Patient
  searchTerm : String
  isFormOpen : Bool
  editingPatient : Option Patient
  deletingPatient : Option Patient
  isLoading : Bool
deriving DecidableEq, Repr

/-- Descending `data_cadastro` order (`.order('data_cadastro', { ascending:
false })`). -/
def cadDesc (a b : Row) : Prop := b.data_cadastro ≤ a.data_cadastro

instance : DecidableRel cadDesc := fun a b => Nat.decLe b.data_cadastro a.data_cadastro

instance : IsTotal Row cadDesc := ⟨fun a b => Nat.le_total b.data_cadastro a.data_cadastro⟩

instance : IsTrans Row cadDesc := ⟨fun _ _ _ hab hbc => Nat.le_trans hbc hab⟩

/-- The rows the row-level-security policy lets the session `uid` see
(`USING auth.uid() = user_id`). -/
def visibleRows (db : List Row) (uid : String) : List Row :=
  db.filter (fun r => r.user_id == uid)

/-- The select of `loadPatients`: all visible rows ordered by
`data_cadastro` descending. -/
def runLoadQuery (db : List Row) (uid : String) : List Row :=
  List.insertionSort cadDesc (visibleRows db uid)

/-- Settled outcome of `loadPatients`: on success the collection is replaced
by the freshly fetched list (and `isLoading` cleared); on failure only an
error toast is produced. -/
def loadPatients (st : MgmtState) (db : List Row) (uid : String)
    (failure : Option String) : MgmtState × Option Toast :=
  match failure with
  | none =>
    ({ st with patients := (runLoadQuery db uid).map rowToPatient, isLoading := false }, none)
  | some _ =>
    ({ st with isLoading := false },
      some { title := "Erro"
             description := "Não foi possível carregar os pacientes."
             variantDestructive := true })

/-- The row built by the insert of `handleCreatePatient`
(`{ ...data, user_id: user?.id }` plus the server-assigned id and
timestamp). -/
def mkRow (p : CreatePatientData) (uid newId : String) (now : Nat) : Row :=
  { id := newId
    nome_completo := p.nome_completo
    data_nascimento := p.data_nascimento
    cpf := p.cpf
    telefone := p.telefone
    endereco_completo := p.endereco_completo
    data_cadastro := now
    user_id := uid }

/-- Settled outcome of `handleCreatePatient`: on success the row is inserted,
a success toast shows, the creation form closes and the list reloads; on
failure only an error toast shows. -/
def handleCreatePatient (st : MgmtState) (db : List Row) (uid : String)
    (p : CreatePatientData) (newId : String) (now : Nat)
    (failure : Option String) : MgmtState × List Row × Option Toast :=
  match failure with
  | none =>
    let db2 := db ++ [mkRow p uid newId now]
    ((loadPatients { st with isFormOpen := false } db2 uid none).1, db2,
      some { title := "Sucesso"
             description := "Paciente cadastrado com sucesso!"
             variantDestructive := false })
  | some _ =>
    (st, db,
      some { title := "Erro"
             description := "Não foi possível cadastrar o paciente."
             variantDestructive := true })

/-- The column set written by the update of `handleUpdatePatient` (exactly
the five form fields; `id`, `data_cadastro`, `user_id` untouched). -/
def updatedRow (r : Row) (p : UpdatePatientData) : Row :=
  { r with
    nome_completo := p.nome_completo
    data_nascimento := p.data_nascimento
    cpf := p.cpf
    telefone := p.telefone
    endereco_completo := p.endereco_completo }

/-- The update statement: `.update({...}).eq('id', data.id)` under the
row-level-security policy (only rows owned by `uid` are touched). -/
def dbUpdate (db : List Row) (uid : String) (p : UpdatePatientData) : List Row :=
  db.map (fun r => if r.id == p.id && r.user_id == uid then updatedRow r p else r)

/-- Settled outcome of `handleUpdatePatient`: on success the rows are
updated, a success toast shows, the edit form closes and the list reloads; on
failure only an error toast shows. -/
def handleUpdatePatient (st : MgmtState) (db : List Row) (uid : String)
    (p : UpdatePatientData) (failure : Option String) :
    MgmtState × List Row × Option Toast :=
  match failure with
  | none =>
    let db2 := dbUpdate db uid p
    ((loadPatients { st with editingPatient := none } db2 uid none).1, db2,
      some { title := "Sucesso"
             description := "Paciente atualizado com sucesso!"
             variantDestructive := false })
  | some _ =>
    (st, db,
      some { title := "Erro"
             description := "Não foi possível atualizar o paciente."
             variantDestructive := true })

/-- The delete statement: `.delete().eq('id', id)` under the
row-level-security policy. -/
def dbDelete (db : List Row) (uid : String) (id : String) : List Row :=
  db.filter (fun r => !(r.id == id && r.user_id == uid))

/-- Settled outcome of `handleDeletePatient`: on success the rows are
deleted, a success toast shows, the pending-deletion state clears and the
list reloads; on failure only an error toast shows. -/
def handleDeletePatient (st : MgmtState) (db : List Row) (uid : String)
    (id : String) (failure : Option String) :
    MgmtState × List Row × Option Toast :=
  match failure with
  | none =>
    let db2 := dbDelete db uid id
    ((loadPatients { st with deletingPatient := none } db2 uid none).1, db2,
      some { title := "Sucesso"
             description := "Paciente excluído com sucesso!"
             variantDestructive := false })
  | some _ =>
    (st, db,
      some { title := "Erro"
             description := "Não foi possível excluir o paciente."
             variantDestructive := true })

/-- The delete request issued by the confirm button of `DeleteConfirmModal`
(`() => deletingPatient && handleDeletePatient(deletingPatient.id)`): `none`
when nothing is staged, else the staged record's id. -/
def confirmRequestedDelete (st : MgmtState) : Option String :=
  match st.deletingPatient with
  | none => none
  | some pat => some pat.id

/-- Settled outcome of clicking the confirm button: a no-op when nothing is
staged, otherwise `handleDeletePatient` on the staged record's id. -/
def confirmClick (st : MgmtState) (db : List Row) (uid : String)
    (failure : Option String) : MgmtState × List Row × Option Toast :=
  match st.deletingPatient with
  | none => (st, db, none)
  | some pat => handleDeletePatient st db uid pat.id failure

/-- The search predicate of `filteredPatients`:
`nome_completo.toLowerCase().includes(term.toLowerCase()) ||
cpf.includes(term)`. -/
def matchesSearch (term : String) (p : Patient) : Bool :=
  strIncludes (strToLower p.nome_completo) (strToLower term) ||
    strIncludes p.cpf term

/-- The derived view `filteredPatients`. -/
def filteredPatients (patients : List Patient) (term : String) : List Patient :=
  patients.filter (matchesSearch term)

/-- Combined state of `PatientManagement` plus the creation form instance. -/
structure AppState where
  mgmt : MgmtState
  createForm : RawForm
deriving DecidableEq, Repr

/-- Settled outcome of one submit click of the creation form: the resolver
either blocks (nothing runs), or `handleFormSubmit` fires
`handleCreatePatient` with the parsed payload and synchronously calls
`reset()` — the reset is not conditioned on the remote outcome. -/
def submitCreateForm (app : AppState) (db : List Row) (uid : String)
    (newId : String) (now : Nat) (failure : Option String) :
    AppState × List Row × Option Toast :=
  match zodParse app.createForm with
  | Except.error _ => (app, db, none)
  | Except.ok p =>
    let res := handleCreatePatient app.mgmt db uid p newId now failure
    ({ mgmt := res.1, createForm := emptyRawForm }, res.2.1, res.2.2)

/-! ## Concrete fixtures used by witnesses and counterexamples -/

def exMgmt : MgmtState :=
  { patients := []
    searchTerm := ""
    isFormOpen := true
    editingPatient := none
    deletingPatient := none
    isLoading := false }

def exForm : RawForm :=
  { nome_completo := "Maria Silva"
    data_nascimento := "1990-01-01"
    cpf := "123.456.789-01"
    telefone := none
    endereco_completo := none }

def exApp : AppState := { mgmt := exMgmt, createForm := exForm }

def exRow1 : Row :=
  { id := "r1"
    nome_completo := "Maria Silva"
    data_nascimento := "1990-01-01"
    cpf := "123.456.789-01"
    telefone := none
    endereco_completo := none
    data_cadastro := 2
    user_id := "u1" }

def exRow2 : Row :=
  { id := "r2"
    nome_completo := "Joao Carlos"
    data_nascimento := "1978-07-22"
    cpf := "987.654.321-02"
    telefone := some "(11) 88888-7777"
    endereco_completo := some "Avenida Paulista, 456"
    data_cadastro := 1
    user_id := "u1" }

def exDb : List Row := [exRow1, exRow2]

def exUpd : UpdatePatientData :=
  { id := "r1"
    nome_completo := "Maria Silva Santos"
    data_nascimento := "1990-01-01"
    cpf := "123.456.789-01"
    telefone := none
    endereco_completo := none }

def exStagedState : MgmtState :=
  { exMgmt with isFormOpen := false, deletingPatient := some (rowToPatient exRow1) }

/-! ## The edit-form instance -/

/-- The edit form's `defaultValues` built from `initialData`
(`telefone: initialData.telefone || ''`, `endereco_completo:
initialData.endereco_completo || ''`): what `reset()` restores in edit
mode. -/
def patientToRawForm (pat : Patient) : RawForm :=
  { nome_completo := pat.nome_completo
    data_nascimento := pat.data_nascimento
    cpf := pat.cpf
    telefone := some pat.telefone
    endereco_completo := some pat.endereco_completo }

/-- Combined state of `PatientManagement` plus the edit form instance (the
`PatientForm` rendered with `initialData = editingPatient`). -/
structure EditAppState where
  mgmt : MgmtState
  editForm : RawForm
deriving DecidableEq, Repr

/-- Settled outcome of one submit click of the edit form: the resolver
either blocks (nothing runs), or `handleFormSubmit` attaches
`initialData.id` to the payload, fires `handleUpdatePatient` and
synchronously calls `reset()` — restoring the pre-edit defaults regardless
of the remote outcome. -/
def submitEditForm (app : EditAppState) (db : List Row) (uid : String)
    (failure : Option String) : EditAppState × List Row × Option Toast :=
  match app.mgmt.editingPatient with
  | none => (app, db, none)
  | some pat =>
    match zodParse app.editForm with
    | Except.error _ => (app, db, none)
    | Except.ok p =>
      let res := handleUpdatePatient app.mgmt db uid
        { id := pat.id
          nome_completo := p.nome_completo
          data_nascimento := p.data_nascimento
          cpf := p.cpf
          telefone := p.telefone
          endereco_completo := p.endereco_completo } failure
      ({ mgmt := res.1, editForm := patientToRawForm pat }, res.2.1, res.2.2)

/-- Edit-mode fixtures: record `exRow1` is open for editing while the user
has changed the name field. -/
def exEditMgmt : MgmtState :=
  { exMgmt with isFormOpen := false, editingPatient := some (rowToPatient exRow1) }

def exEditForm : RawForm :=
  { nome_completo := "Maria Silva Santos"
    data_nascimento := "1990-01-01"
    cpf := "123.456.789-01"
    telefone := some ""
    endereco_completo := some "" }

def exEditApp : EditAppState := { mgmt := exEditMgmt, editForm := exEditForm }

/-! ## Basic lemmas about the string primitives -/

theorem mk_data (l : List Char) : (String.mk l).data = l := rfl

theorem mk_data_self (s : String) : String.mk s.data = s := by
  cases s
  rfl

theorem str_length (s : String) : s.length = s.data.length := by
  cases s
  rfl

theorem str_eq_empty_iff (s : String) : s = "" ↔ s.data = [] := by
  constructor
  · intro h
    rw [h]
  · intro h
    apply String.ext
    simpa using h

theorem length_lt_one_iff (s : String) : s.length < 1 ↔ s = "" := by
  rw [str_length, Nat.lt_one_iff, List.length_eq_zero, str_eq_empty_iff]

theorem stripNonDigits_all_digits (s : String) :
    (stripNonDigits s).data.all Char.isDigit = true := by
  simp only [stripNonDigits, mk_data, List.all_eq_true]
  intro x hx
  exact (List.mem_filter.mp hx).2

theorem stripNonDigits_idem (s : String) :
    stripNonDigits (stripNonDigits s) = stripNonDigits s := by
  apply String.ext
  simp [stripNonDigits, List.filter_filter]

theorem eq_of_length_eleven (l : List Char) (hl : l.length = 11) :
    ∃ c1 c2 c3 c4 c5 c6 c7 c8 c9 c10 c11,
      l = [c1, c2, c3, c4, c5, c6, c7, c8, c9, c10, c11] := by
  rcases l with _ | ⟨c1, l⟩
  · simp at hl
  rcases l with _ | ⟨c2, l⟩
  · simp at hl
  rcases l with _ | ⟨c3, l⟩
  · simp at hl
  rcases l with _ | ⟨c4, l⟩
  · simp at hl
  rcases l with _ | ⟨c5, l⟩
  · simp at hl
  rcases l with _ | ⟨c6, l⟩
  · simp at hl
  rcases l with _ | ⟨c7, l⟩
  · simp at hl
  rcases l with _ | ⟨c8, l⟩
  · simp at hl
  rcases l with _ | ⟨c9, l⟩
  · simp at hl
  rcases l with _ | ⟨c10, l⟩
  · simp at hl
  rcases l with _ | ⟨c11, l⟩
  · simp at hl
  rcases l with _ | ⟨c12, l⟩
  · exact ⟨c1, c2, c3, c4, c5, c6, c7, c8, c9, c10, c11, rfl⟩
  · simp only [List.length_cons] at hl
    omega

theorem eq_of_length_ten (l : List Char) (hl : l.length = 10) :
    ∃ c1 c2 c3 c4 c5 c6 c7 c8 c9 c10,
      l = [c1, c2, c3, c4, c5, c6, c7, c8, c9, c10] := by
  rcases l with _ | ⟨c1, l⟩
  · simp at hl
  rcases l with _ | ⟨c2, l⟩
  · simp at hl
  rcases l with _ | ⟨c3, l⟩
  · simp at hl
  rcases l with _ | ⟨c4, l⟩
  · simp at hl
  rcases l with _ | ⟨c5, l⟩
  · simp at hl
  rcases l with _ | ⟨c6, l⟩
  · simp at hl
  rcases l with _ | ⟨c7, l⟩
  · simp at hl
  rcases l with _ | ⟨c8, l⟩
  · simp at hl
  rcases l with _ | ⟨c9, l⟩
  · simp at hl
  rcases l with _ | ⟨c10, l⟩
  · simp at hl
  rcases l with _ | ⟨c11, l⟩
  · exact ⟨c1, c2, c3, c4, c5, c6, c7, c8, c9, c10, rfl⟩
  · simp only [List.length_cons] at hl
    omega

/-! ## Characterization of the formatters -/

theorem formatCPF_of_data (s : String)
    (c1 c2 c3 c4 c5 c6 c7 c8 c9 c10 c11 : Char)
    (hd : (stripNonDigits s).data = [c1, c2, c3, c4, c5, c6, c7, c8, c9, c10, c11]) :
    formatCPF s =
      String.mk [c1, c2, c3, '.', c4, c5, c6, '.', c7, c8, c9, '-', c10, c11] := by
  have hall := stripNonDigits_all_digits s
  rw [hd] at hall
  simp only [List.all_cons, List.all_nil, Bool.and_eq_true, Bool.and_true] at hall
  obtain ⟨h1, h2, h3, h4, h5, h6, h7, h8, h9, h10, h11⟩ := hall
  unfold formatCPF
  rw [hd]
  simp [h1, h2, h3, h4, h5, h6, h7, h8, h9, h10, h11]

theorem formatCPF_else (s : String) (h : (stripNonDigits s).length ≠ 11) :
    formatCPF s = stripNonDigits s := by
  unfold formatCPF
  split
  · rename_i c1 c2 c3 c4 c5 c6 c7 c8 c9 c10 c11 heq
    exfalso
    apply h
    rw [str_length, heq]
    rfl
  · rfl

theorem strip_cpfFormatted
    (c1 c2 c3 c4 c5 c6 c7 c8 c9 c10 c11 : Char)
    (hall : ([c1, c2, c3, c4, c5, c6, c7, c8, c9, c10, c11].all Char.isDigit) = true) :
    stripNonDigits
        (String.mk [c1, c2, c3, '.', c4, c5, c6, '.', c7, c8, c9, '-', c10, c11]) =
      String.mk [c1, c2, c3, c4, c5, c6, c7, c8, c9, c10, c11] := by
  simp only [List.all_cons, List.all_nil, Bool.and_eq_true, Bool.and_true] at hall
  obtain ⟨h1, h2, h3, h4, h5, h6, h7, h8, h9, h10, h11⟩ := hall
  have hdot : Char.isDigit '.' = false := by decide
  have hdash : Char.isDigit '-' = false := by decide
  apply String.ext
  simp [stripNonDigits, List.filter_cons, h1, h2, h3, h4, h5, h6, h7, h8, h9,
    h10, h11, hdot, hdash]

theorem matches_cpfFormatted
    (c1 c2 c3 c4 c5 c6 c7 c8 c9 c10 c11 : Char)
    (hall : ([c1, c2, c3, c4, c5, c6, c7, c8, c9, c10, c11].all Char.isDigit) = true) :
    matchesCPFPattern
      (String.mk [c1, c2, c3, '.', c4, c5, c6, '.', c7, c8, c9, '-', c10, c11]) = true := by
  simp only [List.all_cons, List.all_nil, Bool.and_eq_true, Bool.and_true] at hall
  obtain ⟨h1, h2, h3, h4, h5, h6, h7, h8, h9, h10, h11⟩ := hall
  simp [matchesCPFPattern, h1, h2, h3, h4, h5, h6, h7, h8, h9, h10, h11]

theorem formatPhone_of_data_eleven (s : String)
    (c1 c2 c3 c4 c5 c6 c7 c8 c9 c10 c11 : Char)
    (hd : (stripNonDigits s).data = [c1, c2, c3, c4, c5, c6, c7, c8, c9, c10, c11]) :
    formatPhone s =
      String.mk ['(', c1, c2, ')', ' ', c3, c4, c5, c6, c7, '-', c8, c9, c10, c11] := by
  have hlen : (stripNonDigits s).length = 11 := by
    rw [str_length, hd]
    rfl
  have hall := stripNonDigits_all_digits s
  rw [hd] at hall
  simp only [List.all_cons, List.all_nil, Bool.and_eq_true, Bool.and_true] at hall
  obtain ⟨h1, h2, h3, h4, h5, h6, h7, h8, h9, h10, h11⟩ := hall
  unfold formatPhone
  rw [if_pos hlen, hd]
  simp [h1, h2, h3, h4, h5, h6, h7, h8, h9, h10, h11]

theorem formatPhone_of_data_ten (s : String)
    (c1 c2 c3 c4 c5 c6 c7 c8 c9 c10 : Char)
    (hd : (stripNonDigits s).data = [c1, c2, c3, c4, c5, c6, c7, c8, c9, c10]) :
    formatPhone s =
      String.mk ['(', c1, c2, ')', ' ', c3, c4, c5, c6, '-', c7, c8, c9, c10] := by
  have hlen : (stripNonDigits s).length = 10 := by
    rw [str_length, hd]
    rfl
  have hne : ¬(stripNonDigits s).length = 11 := by omega
  have hall := stripNonDigits_all_digits s
  rw [hd] at hall
  simp only [List.all_cons, List.all_nil, Bool.and_eq_true, Bool.and_true] at hall
  obtain ⟨h1, h2, h3, h4, h5, h6, h7, h8, h9, h10⟩ := hall
  unfold formatPhone
  rw [if_neg hne, if_pos hlen, hd]
  simp [h1, h2, h3, h4, h5, h6, h7, h8, h9, h10]

theorem formatPhone_else (s : String) (h11 : (stripNonDigits s).length ≠ 11)
    (h10 : (stripNonDigits s).length ≠ 10) :
    formatPhone s = stripNonDigits s := by
  unfold formatPhone
  rw [if_neg h11, if_neg h10]

theorem strip_phoneFormatted_eleven
    (c1 c2 c3 c4 c5 c6 c7 c8 c9 c10 c11 : Char)
    (hall : ([c1, c2, c3, c4, c5, c6, c7, c8, c9, c10, c11].all Char.isDigit) = true) :
    stripNonDigits
        (String.mk ['(', c1, c2, ')', ' ', c3, c4, c5, c6, c7, '-', c8, c9, c10, c11]) =
      String.mk [c1, c2, c3, c4, c5, c6, c7, c8, c9, c10, c11] := by
  simp only [List.all_cons, List.all_nil, Bool.and_eq_true, Bool.and_true] at hall
  obtain ⟨h1, h2, h3, h4, h5, h6, h7, h8, h9, h10, h11⟩ := hall
  have hop : Char.isDigit '(' = false := by decide
  have hcl : Char.isDigit ')' = false := by decide
  have hsp : Char.isDigit ' ' = false := by decide
  have hdash : Char.isDigit '-' = false := by decide
  apply String.ext
  simp [stripNonDigits, List.filter_cons, h1, h2, h3, h4, h5, h6, h7, h8, h9,
    h10, h11, hop, hcl, hsp, hdash]

theorem strip_phoneFormatted_ten
    (c1 c2 c3 c4 c5 c6 c7 c8 c9 c10 : Char)
    (hall : ([c1, c2, c3, c4, c5, c6, c7, c8, c9, c10].all Char.isDigit) = true) :
    stripNonDigits
        (String.mk ['(', c1, c2, ')', ' ', c3, c4, c5, c6, '-', c7, c8, c9, c10]) =
      String.mk [c1, c2, c3, c4, c5, c6, c7, c8, c9, c10] := by
  simp only [List.all_cons, List.all_nil, Bool.and_eq_true, Bool.and_true] at hall
  obtain ⟨h1, h2, h3, h4, h5, h6, h7, h8, h9, h10⟩ := hall
  have hop : Char.isDigit '(' = false := by decide
  have hcl : Char.isDigit ')' = false := by decide
  have hsp : Char.isDigit ' ' = false := by decide
  have hdash : Char.isDigit '-' = false := by decide
  apply String.ext
  simp [stripNonDigits, List.filter_cons, h1, h2, h3, h4, h5, h6, h7, h8, h9,
    h10, hop, hcl, hsp, hdash]

theorem matches_phoneFormatted_eleven
    (c1 c2 c3 c4 c5 c6 c7 c8 c9 c10 c11 : Char)
    (hall : ([c1, c2, c3, c4, c5, c6, c7, c8, c9, c10, c11].all Char.isDigit) = true) :
    matchesPhonePattern
      (String.mk ['(', c1, c2, ')', ' ', c3, c4, c5, c6, c7, '-', c8, c9, c10, c11]) = true := by
  simp only [List.all_cons, List.all_nil, Bool.and_eq_true, Bool.and_true] at hall
  obtain ⟨h1, h2, h3, h4, h5, h6, h7, h8, h9, h10, h11⟩ := hall
  simp [matchesPhonePattern, h1, h2, h3, h4, h5, h6, h7, h8, h9, h10, h11]

theorem matches_phoneFormatted_ten
    (c1 c2 c3 c4 c5 c6 c7 c8 c9 c10 : Char)
    (hall : ([c1, c2, c3, c4, c5, c6, c7, c8, c9, c10].all Char.isDigit) = true) :
    matchesPhonePattern
      (String.mk ['(', c1, c2, ')', ' ', c3, c4, c5, c6, '-', c7, c8, c9, c10]) = true := by
  simp only [List.all_cons, List.all_nil, Bool.and_eq_true, Bool.and_true] at hall
  obtain ⟨h1, h2, h3, h4, h5, h6, h7, h8, h9, h10⟩ := hall
  simp [matchesPhonePattern, h1, h2, h3, h4, h5, h6, h7, h8, h9, h10]

theorem formatCPF_idem (s : String) : formatCPF (formatCPF s) = formatCPF s := by
  by_cases h : (stripNonDigits s).length = 11
  · obtain ⟨c1, c2, c3, c4, c5, c6, c7, c8, c9, c10, c11, hd⟩ :=
      eq_of_length_eleven (stripNonDigits s).data (by rw [← str_length]; exact h)
    have hall : ([c1, c2, c3, c4, c5, c6, c7, c8, c9, c10, c11].all Char.isDigit) = true := by
      rw [← hd]
      exact stripNonDigits_all_digits s
    have hfmt := formatCPF_of_data s c1 c2 c3 c4 c5 c6 c7 c8 c9 c10 c11 hd
    have hd2 : (stripNonDigits (formatCPF s)).data =
        [c1, c2, c3, c4, c5, c6, c7, c8, c9, c10, c11] := by
      rw [hfmt, strip_cpfFormatted c1 c2 c3 c4 c5 c6 c7 c8 c9 c10 c11 hall, mk_data]
    rw [formatCPF_of_data (formatCPF s) c1 c2 c3 c4 c5 c6 c7 c8 c9 c10 c11 hd2, hfmt]
  · rw [formatCPF_else s h]
    have h2 : (stripNonDigits (stripNonDigits s)).length ≠ 11 := by
      rw [stripNonDigits_idem]
      exact h
    rw [formatCPF_else (stripNonDigits s) h2]
    exact stripNonDigits_idem s

theorem formatPhone_idem (s : String) : formatPhone (formatPhone s) = formatPhone s := by
  by_cases h : (stripNonDigits s).length = 11
  · obtain ⟨c1, c2, c3, c4, c5, c6, c7, c8, c9, c10, c11, hd⟩ :=
      eq_of_length_eleven (stripNonDigits s).data (by rw [← str_length]; exact h)
    have hall : ([c1, c2, c3, c4, c5, c6, c7, c8, c9, c10, c11].all Char.isDigit) = true := by
      rw [← hd]
      exact stripNonDigits_all_digits s
    have hfmt := formatPhone_of_data_eleven s c1 c2 c3 c4 c5 c6 c7 c8 c9 c10 c11 hd
    have hd2 : (stripNonDigits (formatPhone s)).data =
        [c1, c2, c3, c4, c5, c6, c7, c8, c9, c10, c11] := by
      rw [hfmt, strip_phoneFormatted_eleven c1 c2 c3 c4 c5 c6 c7 c8 c9 c10 c11 hall, mk_data]
    rw [formatPhone_of_data_eleven (formatPhone s) c1 c2 c3 c4 c5 c6 c7 c8 c9 c10 c11 hd2, hfmt]
  · by_cases h' : (stripNonDigits s).length = 10
    · obtain ⟨c1, c2, c3, c4, c5, c6, c7, c8, c9, c10, hd⟩ :=
        eq_of_length_ten (stripNonDigits s).data (by rw [← str_length]; exact h')
      have hall : ([c1, c2, c3, c4, c5, c6, c7, c8, c9, c10].all Char.isDigit) = true := by
        rw [← hd]
        exact stripNonDigits_all_digits s
      have hfmt := formatPhone_of_data_ten s c1 c2 c3 c4 c5 c6 c7 c8 c9 c10 hd
      have hd2 : (stripNonDigits (formatPhone s)).data =
          [c1, c2, c3, c4, c5, c6, c7, c8, c9, c10] := by
        rw [hfmt, strip_phoneFormatted_ten c1 c2 c3 c4 c5 c6 c7 c8 c9 c10 hall, mk_data]
      rw [formatPhone_of_data_ten (formatPhone s) c1 c2 c3 c4 c5 c6 c7 c8 c9 c10 hd2, hfmt]
    · rw [formatPhone_else s h h']
      have h2 : (stripNonDigits (stripNonDigits s)).length ≠ 11 := by
        rw [stripNonDigits_idem]
        exact h
      have h2' : (stripNonDigits (stripNonDigits s)).length ≠ 10 := by
        rw [stripNonDigits_idem]
        exact h'
      rw [formatPhone_else (stripNonDigits s) h2 h2']
      exact stripNonDigits_idem s

/-- C4: for every input string, `formatCPF` strips all non-digit characters;
if exactly 11 digits remain the result matches the pattern
`DDD.DDD.DDD-DD` and contains exactly those 11 digits in order; for any other
digit count it returns the bare digit-stripped string with no partial
formatting. -/
theorem formatCPF_contract (s : String) :
    ((stripNonDigits s).length = 11 →
      matchesCPFPattern (formatCPF s) = true ∧
      stripNonDigits (formatCPF s) = stripNonDigits s) ∧
    ((stripNonDigits s).length ≠ 11 → formatCPF s = stripNonDigits s) := by
  constructor
  · intro h
    obtain ⟨c1, c2, c3, c4, c5, c6, c7, c8, c9, c10, c11, hd⟩ :=
      eq_of_length_eleven (stripNonDigits s).data (by rw [← str_length]; exact h)
    have hall : ([c1, c2, c3, c4, c5, c6, c7, c8, c9, c10, c11].all Char.isDigit) = true := by
      rw [← hd]
      exact stripNonDigits_all_digits s
    have hfmt := formatCPF_of_data s c1 c2 c3 c4 c5 c6 c7 c8 c9 c10 c11 hd
    constructor
    · rw [hfmt]
      exact matches_cpfFormatted c1 c2 c3 c4 c5 c6 c7 c8 c9 c10 c11 hall
    · rw [hfmt, strip_cpfFormatted c1 c2 c3 c4 c5 c6 c7 c8 c9 c10 c11 hall]
      apply String.ext
      rw [mk_data, hd]
  · exact formatCPF_else s

/-- C4 witness: a concrete 11-digit input. -/
theorem formatCPF_contract_witness :
    matchesCPFPattern (formatCPF "12345678901") = true ∧
    stripNonDigits (formatCPF "12345678901") = stripNonDigits "12345678901" :=
  (formatCPF_contract "12345678901").1 (by decide)

/-- C5: for every input string, `formatPhone` strips non-digits; with exactly
11 or exactly 10 digits it produces a string matching
`(DD) DDDDD-DDDD` / `(DD) DDDD-DDDD`, preserving the digits in order; for any
other digit count it returns the bare stripped digit string. -/
theorem formatPhone_contract (s : String) :
    ((stripNonDigits s).length = 11 →
      matchesPhonePattern (formatPhone s) = true ∧
      stripNonDigits (formatPhone s) = stripNonDigits s) ∧
    ((stripNonDigits s).length = 10 →
      matchesPhonePattern (formatPhone s) = true ∧
      stripNonDigits (formatPhone s) = stripNonDigits s) ∧
    ((stripNonDigits s).length ≠ 11 → (stripNonDigits s).length ≠ 10 →
      formatPhone s = stripNonDigits s) := by
  refine ⟨?_, ?_, formatPhone_else s⟩
  · intro h
    obtain ⟨c1, c2, c3, c4, c5, c6, c7, c8, c9, c10, c11, hd⟩ :=
      eq_of_length_eleven (stripNonDigits s).data (by rw [← str_length]; exact h)
    have hall : ([c1, c2, c3, c4, c5, c6, c7, c8, c9, c10, c11].all Char.isDigit) = true := by
      rw [← hd]
      exact stripNonDigits_all_digits s
    have hfmt := formatPhone_of_data_eleven s c1 c2 c3 c4 c5 c6 c7 c8 c9 c10 c11 hd
    constructor
    · rw [hfmt]
      exact matches_phoneFormatted_eleven c1 c2 c3 c4 c5 c6 c7 c8 c9 c10 c11 hall
    · rw [hfmt, strip_phoneFormatted_eleven c1 c2 c3 c4 c5 c6 c7 c8 c9 c10 c11 hall]
      apply String.ext
      rw [mk_data, hd]
  · intro h
    obtain ⟨c1, c2, c3, c4, c5, c6, c7, c8, c9, c10, hd⟩ :=
      eq_of_length_ten (stripNonDigits s).data (by rw [← str_length]; exact h)
    have hall : ([c1, c2, c3, c4, c5, c6, c7, c8, c9, c10].all Char.isDigit) = true := by
      rw [← hd]
      exact stripNonDigits_all_digits s
    have hfmt := formatPhone_of_data_ten s c1 c2 c3 c4 c5 c6 c7 c8 c9 c10 hd
    constructor
    · rw [hfmt]
      exact matches_phoneFormatted_ten c1 c2 c3 c4 c5 c6 c7 c8 c9 c10 hall
    · rw [hfmt, strip_phoneFormatted_ten c1 c2 c3 c4 c5 c6 c7 c8 c9 c10 hall]
      apply String.ext
      rw [mk_data, hd]

/-- C5 witness: a concrete 11-digit input. -/
theorem formatPhone_contract_witness :
    matchesPhonePattern (formatPhone "11999998888") = true ∧
    stripNonDigits (formatPhone "11999998888") = stripNonDigits "11999998888" :=
  (formatPhone_contract "11999998888").1 (by decide)

/-- C9: both formatters are idempotent: applying `formatCPF` or `formatPhone`
to its own output returns that output unchanged, for every input string. -/
theorem formatters_idempotent (s : String) :
    formatCPF (formatCPF s) = formatCPF s ∧
    formatPhone (formatPhone s) = formatPhone s :=
  ⟨formatCPF_idem s, formatPhone_idem s⟩

/-! ## Lemmas about search filtering -/

theorem containsSub_nil (hay : List Char) : containsSub hay [] = true := by
  cases hay with
  | nil => rfl
  | cons x t => simp [containsSub, List.isPrefixOf]

theorem strToLower_empty : strToLower "" = "" := rfl

theorem matchesSearch_empty (p : Patient) : matchesSearch "" p = true := by
  simp [matchesSearch, strToLower_empty, strIncludes, containsSub_nil]

/-! ## Lemmas about the zod schema -/

theorem telefoneOk_iff (v : Option String) :
    telefoneOk v = true ↔
      (v = none ∨ v = some "" ∨ ∃ t, v = some t ∧ matchesPhonePattern t = true) := by
  cases v with
  | none => simp [telefoneOk]
  | some s =>
    simp only [telefoneOk, Bool.or_eq_true, beq_iff_eq]
    constructor
    · rintro (h | h)
      · exact Or.inr (Or.inl (by rw [h]))
      · exact Or.inr (Or.inr ⟨s, rfl, h⟩)
    · rintro (h | h | ⟨t, ht, hm⟩)
      · cases h
      · exact Or.inl (by injection h)
      · injection ht with ht
        rw [ht]
        exact Or.inr hm

theorem enderecoOk_iff (v : Option String) :
    enderecoOk v = true ↔ (∀ a, v = some a → a.length ≤ 1000) := by
  cases v with
  | none => simp [enderecoOk]
  | some s => simp [enderecoOk]

theorem matchesCPFPattern_nonempty (s : String) (h : matchesCPFPattern s = true) :
    s ≠ "" := by
  intro he
  rw [he] at h
  cases h

theorem zodParse_ok_iff (f : RawForm) :
    (∃ p, zodParse f = Except.ok p) ↔ specFormValid f := by
  unfold zodParse specFormValid
  by_cases h1 : (strTrim f.nome_completo).length < 1
  · rw [if_pos h1]
    constructor
    · rintro ⟨p, hp⟩
      cases hp
    · rintro ⟨hn, -⟩
      exact absurd ((length_lt_one_iff _).mp h1) hn
  · rw [if_neg h1]
    by_cases h2 : 255 < (strTrim f.nome_completo).length
    · rw [if_pos h2]
      constructor
      · rintro ⟨p, hp⟩
        cases hp
      · rintro ⟨-, hn, -⟩
        omega
    · rw [if_neg h2]
      by_cases h3 : f.data_nascimento.length < 1
      · rw [if_pos h3]
        constructor
        · rintro ⟨p, hp⟩
          cases hp
        · rintro ⟨-, -, hd, -⟩
          exact absurd ((length_lt_one_iff _).mp h3) hd
      · rw [if_neg h3]
        by_cases h4 : (strTrim f.cpf).length < 1
        · rw [if_pos h4]
          constructor
          · rintro ⟨p, hp⟩
            cases hp
          · rintro ⟨-, -, -, hc, -⟩
            exact absurd ((length_lt_one_iff _).mp h4)
              (matchesCPFPattern_nonempty _ hc)
        · rw [if_neg h4]
          by_cases h5 : (!matchesCPFPattern (strTrim f.cpf)) = true
          · rw [if_pos h5]
            constructor
            · rintro ⟨p, hp⟩
              cases hp
            · rintro ⟨-, -, -, hc, -⟩
              rw [hc] at h5
              cases h5
          · rw [if_neg h5]
            by_cases h6 : (!telefoneOk f.telefone) = true
            · rw [if_pos h6]
              constructor
              · rintro ⟨p, hp⟩
                cases hp
              · rintro ⟨-, -, -, -, ht, -⟩
                rw [(telefoneOk_iff f.telefone).mpr ht] at h6
                cases h6
            · rw [if_neg h6]
              by_cases h7 : (!enderecoOk f.endereco_completo) = true
              · rw [if_pos h7]
                constructor
                · rintro ⟨p, hp⟩
                  cases hp
                · rintro ⟨-, -, -, -, -, he⟩
                  rw [(enderecoOk_iff f.endereco_completo).mpr he] at h7
                  cases h7
              · rw [if_neg h7]
                constructor
                · rintro -
                  refine ⟨?_, by omega, ?_, ?_, ?_, ?_⟩
                  · intro he
                    rw [he] at h1
                    exact h1 (by decide)
                  · intro he
                    rw [he] at h3
                    exact h3 (by decide)
                  · rcases hb : matchesCPFPattern (strTrim f.cpf) with _ | _
                    · rw [hb] at h5
                      exact absurd rfl h5
                    · rfl
                  · rcases hb : telefoneOk f.telefone with _ | _
                    · rw [hb] at h6
                      exact absurd rfl h6
                    · exact (telefoneOk_iff f.telefone).mp hb
                  · rcases hb : enderecoOk f.endereco_completo with _ | _
                    · rw [hb] at h7
                      exact absurd rfl h7
                    · exact (enderecoOk_iff f.endereco_completo).mp hb
                · rintro -
                  exact ⟨_, rfl⟩

/-! ## Claim theorems -/

/-- C3: for every in-memory collection and every search term,
`filteredPatients` returns exactly the subset of records whose name contains
the term case-insensitively (lower-cased containment, as the code computes
it) or whose CPF contains the term as a literal substring, preserving order
(it is a sublist of the collection); the empty term returns the full
collection unchanged. -/
theorem filteredPatients_contract (ps : List Patient) (term : String) :
    (filteredPatients ps term).Sublist ps ∧
    (∀ p, p ∈ filteredPatients ps term ↔
      p ∈ ps ∧ (strIncludes (strToLower p.nome_completo) (strToLower term) = true ∨
        strIncludes p.cpf term = true)) ∧
    filteredPatients ps "" = ps := by
  refine ⟨List.filter_sublist ps, ?_, ?_⟩
  · intro p
    simp only [filteredPatients, List.mem_filter, matchesSearch, Bool.or_eq_true]
  · rw [filteredPatients, List.filter_eq_self]
    intro p _
    exact matchesSearch_empty p

/-- C3 witness: the empty search term on a concrete collection. -/
theorem filteredPatients_contract_witness :
    filteredPatients [rowToPatient exRow1] "" = [rowToPatient exRow1] :=
  (filteredPatients_contract [rowToPatient exRow1] "").2.2

/-- C2: `loadPatients` fetches exactly the rows visible to the session
identity, ordered by `data_cadastro` descending; on success it replaces the
whole collection with the fetched list; on failure the previous collection is
untouched and a destructive-variant toast is reported. -/
theorem loadPatients_contract (st : MgmtState) (db : List Row) (uid : String)
    (msg : String) :
    (loadPatients st db uid none).1.patients =
      (runLoadQuery db uid).map rowToPatient ∧
    List.Sorted cadDesc (runLoadQuery db uid) ∧
    (runLoadQuery db uid).Perm (visibleRows db uid) ∧
    (∀ r, r ∈ runLoadQuery db uid ↔ r ∈ db ∧ r.user_id = uid) ∧
    (loadPatients st db uid (some msg)).1.patients = st.patients ∧
    ((loadPatients st db uid (some msg)).2).map Toast.variantDestructive = some true := by
  refine ⟨rfl, List.sorted_insertionSort cadDesc _, List.perm_insertionSort cadDesc _,
    ?_, rfl, rfl⟩
  intro r
  rw [runLoadQuery, (List.perm_insertionSort cadDesc (visibleRows db uid)).mem_iff]
  simp [visibleRows, List.mem_filter]

/-- C6: a form submission emits a payload iff every field passes the schema:
trimmed name non-empty and at most 255 characters, birth date non-empty, CPF
matching the pattern, phone absent/empty or matching the pattern, address at
most 1000 characters; when validation fails nothing is emitted, the working
values stay populated, and a failing message is produced. -/
theorem form_submission_contract (f : RawForm) :
    ((handleSubmitForm f).1.isSome = true ↔ specFormValid f) ∧
    ((handleSubmitForm f).1 = none →
      (handleSubmitForm f).2 = f ∧ ∃ m, zodParse f = Except.error m) := by
  constructor
  · cases hz : zodParse f with
    | ok p =>
      simp only [handleSubmitForm, hz, Option.isSome_some, true_iff]
      exact (zodParse_ok_iff f).mp ⟨p, hz⟩
    | error m =>
      simp only [handleSubmitForm, hz]
      constructor
      · intro hs
        exact absurd hs (by decide)
      · intro hs
        obtain ⟨p, hp⟩ := (zodParse_ok_iff f).mpr hs
        rw [hz] at hp
        cases hp
  · intro hnone
    cases hz : zodParse f with
    | ok p =>
      exfalso
      have hsome : (handleSubmitForm f).1 = some p := by
        simp [handleSubmitForm, hz]
      rw [hnone] at hsome
      cases hsome
    | error m =>
      have h2 : (handleSubmitForm f).2 = f := by
        simp [handleSubmitForm, hz]
      exact ⟨h2, m, rfl⟩

/-- C6 witness: a concrete valid form emits a payload. -/
theorem form_submission_contract_witness :
    (handleSubmitForm exForm).1.isSome = true :=
  ((form_submission_contract exForm).1).mpr (by
    refine ⟨by decide, by decide, by decide, by decide, Or.inl rfl, ?_⟩
    intro a ha
    cases ha)

/-- C1 counterexample: submitting a valid, populated creation form against a
failing remote store leaves the form open but with its working values reset
to the defaults, not preserved — the claim's preserved-fields part fails. -/
theorem create_failure_fields_cleared :
    (submitCreateForm exApp exDb "u1" "r9" 9 (some "network error")).1.createForm ≠
      exApp.createForm ∧
    (submitCreateForm exApp exDb "u1" "r9" 9 (some "network error")).1.mgmt.isFormOpen
      = true := by
  decide

/-- C1 (amended): on a failed create or update submission the
management-level state is fully preserved — the creation form stays open, in
edit mode the record stays open for editing so the edit form stays open, and
the collection, staged records and remote rows are untouched — and a
destructive-variant toast is reported; but in both modes the form's working
values are unconditionally reset by the submission itself (to the empty
defaults on create, to the record's pre-edit values on update) rather than
preserved. -/
theorem submit_failure_amended (app : AppState) (eapp : EditAppState)
    (db edb : List Row) (uid newId : String) (now : Nat) (msg : String)
    (p q : CreatePatientData) (pat : Patient)
    (hv : zodParse app.createForm = Except.ok p)
    (hedit : eapp.mgmt.editingPatient = some pat)
    (hv2 : zodParse eapp.editForm = Except.ok q) :
    (submitCreateForm app db uid newId now (some msg)).1.mgmt = app.mgmt ∧
    (submitCreateForm app db uid newId now (some msg)).2.1 = db ∧
    ((submitCreateForm app db uid newId now (some msg)).2.2).map
      Toast.variantDestructive = some true ∧
    (submitCreateForm app db uid newId now (some msg)).1.createForm = emptyRawForm ∧
    (submitEditForm eapp edb uid (some msg)).1.mgmt = eapp.mgmt ∧
    (submitEditForm eapp edb uid (some msg)).1.mgmt.editingPatient = some pat ∧
    (submitEditForm eapp edb uid (some msg)).2.1 = edb ∧
    ((submitEditForm eapp edb uid (some msg)).2.2).map
      Toast.variantDestructive = some true ∧
    (submitEditForm eapp edb uid (some msg)).1.editForm = patientToRawForm pat := by
  refine ⟨?_, ?_, ?_, ?_, ?_, ?_, ?_, ?_, ?_⟩
  · simp [submitCreateForm, hv, handleCreatePatient]
  · simp [submitCreateForm, hv, handleCreatePatient]
  · simp [submitCreateForm, hv, handleCreatePatient]
  · simp [submitCreateForm, hv, handleCreatePatient]
  · simp [submitEditForm, hedit, hv2, handleUpdatePatient]
  · simp [submitEditForm, hedit, hv2, handleUpdatePatient]
  · simp [submitEditForm, hedit, hv2, handleUpdatePatient]
  · simp [submitEditForm, hedit, hv2, handleUpdatePatient]
  · simp [submitEditForm, hedit, hv2, handleUpdatePatient]

/-- C1 witness: the amended failure contract at concrete create-mode and
edit-mode states. -/
theorem submit_failure_amended_witness :
    (submitCreateForm exApp exDb "u1" "r9" 9 (some "boom")).1.mgmt = exApp.mgmt ∧
    (submitCreateForm exApp exDb "u1" "r9" 9 (some "boom")).2.1 = exDb ∧
    ((submitCreateForm exApp exDb "u1" "r9" 9 (some "boom")).2.2).map
      Toast.variantDestructive = some true ∧
    (submitCreateForm exApp exDb "u1" "r9" 9 (some "boom")).1.createForm = emptyRawForm ∧
    (submitEditForm exEditApp exDb "u1" (some "boom")).1.mgmt = exEditApp.mgmt ∧
    (submitEditForm exEditApp exDb "u1" (some "boom")).1.mgmt.editingPatient =
      some (rowToPatient exRow1) ∧
    (submitEditForm exEditApp exDb "u1" (some "boom")).2.1 = exDb ∧
    ((submitEditForm exEditApp exDb "u1" (some "boom")).2.2).map
      Toast.variantDestructive = some true ∧
    (submitEditForm exEditApp exDb "u1" (some "boom")).1.editForm =
      patientToRawForm (rowToPatient exRow1) :=
  submit_failure_amended exApp exEditApp exDb exDb "u1" "r9" 9 "boom"
    { nome_completo := "Maria Silva"
      data_nascimento := "1990-01-01"
      cpf := "123.456.789-01"
      telefone := none
      endereco_completo := none }
    { nome_completo := "Maria Silva Santos"
      data_nascimento := "1990-01-01"
      cpf := "123.456.789-01"
      telefone := some ""
      endereco_completo := some "" }
    (rowToPatient exRow1) (by rfl) (by rfl) (by rfl)

/-- C7: the update writes only the five form fields of the rows matching
`payload.id` (those it owns), and preserves `id`, `data_cadastro` and
`user_id` of every row and every field of every non-matching row, keeping
the store's length and order. -/
theorem update_frame (db : List Row) (uid : String) (p : UpdatePatientData)
    (i : Nat) (hi : i < db.length) (hi2 : i < (dbUpdate db uid p).length) :
    (dbUpdate db uid p).length = db.length ∧
    (dbUpdate db uid p)[i].id = db[i].id ∧
    (dbUpdate db uid p)[i].data_cadastro = db[i].data_cadastro ∧
    (dbUpdate db uid p)[i].user_id = db[i].user_id ∧
    (db[i].id ≠ p.id → (dbUpdate db uid p)[i] = db[i]) ∧
    (db[i].id = p.id → db[i].user_id = uid →
      (dbUpdate db uid p)[i] = updatedRow db[i] p) := by
  have hlen : (dbUpdate db uid p).length = db.length := by
    simp [dbUpdate]
  have hget : (dbUpdate db uid p)[i] =
      (if db[i].id == p.id && db[i].user_id == uid then updatedRow db[i] p
        else db[i]) := by
    simp [dbUpdate]
  by_cases hc : (db[i].id == p.id && db[i].user_id == uid) = true
  · rw [if_pos hc] at hget
    have hid : db[i].id = p.id := by
      have := (Bool.and_eq_true _ _).mp hc
      exact beq_iff_eq.mp this.1
    refine ⟨hlen, ?_, ?_, ?_, ?_, ?_⟩
    · rw [hget]
      rfl
    · rw [hget]
      rfl
    · rw [hget]
      rfl
    · intro hne
      exact absurd hid hne
    · intro _ _
      exact hget
  · rw [if_neg hc] at hget
    refine ⟨hlen, by rw [hget], by rw [hget], by rw [hget], fun _ => hget, ?_⟩
    intro hid huid
    exfalso
    exact hc ((Bool.and_eq_true _ _).mpr ⟨beq_iff_eq.mpr hid, beq_iff_eq.mpr huid⟩)

/-- C7 witness: the frame contract at a concrete store and payload. -/
theorem update_frame_witness :
    (dbUpdate exDb "u1" exUpd).length = exDb.length ∧
    (dbUpdate exDb "u1" exUpd).get ⟨0, by decide⟩ =
      updatedRow (exDb.get ⟨0, by decide⟩) exUpd := by
  have h := update_frame exDb "u1" exUpd 0 (by decide) (by decide)
  exact ⟨h.1, h.2.2.2.2.2 (by decide) (by decide)⟩

/-- C8: a delete issued from the confirmation gate clears the
pending-deletion state and reloads the list on success; on failure the whole
management state — including the staged record, hence the open dialog — and
the store are preserved and a destructive-variant toast is reported. -/
theorem delete_contract (st : MgmtState) (db : List Row) (uid id : String)
    (msg : String) :
    (handleDeletePatient st db uid id none).1.deletingPatient = none ∧
    (handleDeletePatient st db uid id none).1.patients =
      (runLoadQuery (dbDelete db uid id) uid).map rowToPatient ∧
    (handleDeletePatient st db uid id (some msg)).1 = st ∧
    (handleDeletePatient st db uid id (some msg)).2.1 = db ∧
    ((handleDeletePatient st db uid id (some msg)).2.2).map
      Toast.variantDestructive = some true :=
  ⟨rfl, rfl, rfl, rfl, rfl⟩

/-- C10: confirming the delete dialog issues a delete only when a record is
staged, and then with exactly the staged record's id; in the idle state
confirming performs no operation at all, and a confirmed delete never
removes rows with a different id. -/
theorem confirm_gate_contract (st : MgmtState) (db : List Row) (uid : String)
    (failure : Option String) :
    (st.deletingPatient = none →
      confirmRequestedDelete st = none ∧
      confirmClick st db uid failure = (st, db, none)) ∧
    (∀ pat, st.deletingPatient = some pat →
      confirmRequestedDelete st = some pat.id ∧
      confirmClick st db uid failure = handleDeletePatient st db uid pat.id failure ∧
      (∀ r ∈ db, r.id ≠ pat.id → r ∈ (confirmClick st db uid none).2.1)) := by
  constructor
  · intro hidle
    constructor
    · rw [confirmRequestedDelete, hidle]
    · rw [confirmClick, hidle]
  · intro pat hstaged
    refine ⟨?_, ?_, ?_⟩
    · rw [confirmRequestedDelete, hstaged]
    · rw [confirmClick, hstaged]
    · intro r hr hne
      have : (confirmClick st db uid none).2.1 = dbDelete db uid pat.id := by
        rw [confirmClick, hstaged]
        rfl
      rw [this, dbDelete, List.mem_filter]
      refine ⟨hr, ?_⟩
      simp only [Bool.not_eq_true', Bool.and_eq_false_iff]
      left
      exact beq_eq_false_iff_ne.mpr hne

/-- C10 witness: a staged record at a concrete state. -/
theorem confirm_gate_contract_witness :
    confirmRequestedDelete exStagedState = some "r1" ∧
    confirmClick exStagedState exDb "u1" none =
      handleDeletePatient exStagedState exDb "u1" "r1" none := by
  have h := (confirm_gate_contract exStagedState exDb "u1" none).2
    (rowToPatient exRow1) rfl
  exact ⟨h.1, h.2.1⟩
